import Mathlib

/-!
Formal model of the ATtiny I2C watchdog firmware (attiny_watchdog).

The firmware keeps four 8-bit globals (`wdt_counter`, `wdt_expirations`,
`register_pointer`, `config_reg`) and drives three active-high output
lines (ALERT, RESET, POWERCYCLE).  The ALERT line is level state (latched
until a refresh write deasserts it), so it is a field of the model state.
The RESET and POWERCYCLE lines are only ever driven as
assert-delay-deassert pulses inside `timer_handler`, so their net level is
always low; each pulse is modelled as an emitted `Event` instead of a
state field.  8-bit arithmetic is modelled on `Nat` with explicit `% 256`.
-/

namespace AttinyWdt

/-- Firmware version constant (`FW_VERSION 0x10`). -/
def FW_VERSION : Nat := 0x10

/-- Register address 0: version, read only (`REG_VERSION`). -/
def REG_VERSION : Nat := 0

/-- Register address 1: configuration (`REG_CONFIG`). -/
def REG_CONFIG : Nat := 1

/-- Register address 2: watchdog refresh (`REG_WDT`). -/
def REG_WDT : Nat := 2

/-- Config bit 0: enable the RESET output (`CONFIG_ENABLE_RESET`). -/
def CONFIG_ENABLE_RESET : Nat := 1

/-- Config bit 1: enable the POWERCYCLE output (`CONFIG_ENABLE_POWERCYCLE`). -/
def CONFIG_ENABLE_POWERCYCLE : Nat := 2

/-- Config bit 2: enable the ALERT output (`CONFIG_ENABLE_ALERT`). -/
def CONFIG_ENABLE_ALERT : Nat := 4

/-- Output-line actions emitted by the timer handler.  `alertAssert` is the
`assert_alert()` call; `resetPulse` and `powercyclePulse` are the
assert-delay-deassert sequences on the RESET and POWERCYCLE lines. -/
inductive Event where
  | alertAssert : Event
  | resetPulse : Event
  | powercyclePulse : Event
deriving Repr, DecidableEq

/-- The firmware globals plus the latched ALERT line level. -/
structure State where
  wdt_counter : Nat
  wdt_expirations : Nat
  register_pointer : Nat
  config_reg : Nat
  alert : Bool
deriving Repr, DecidableEq

/-- Power-on state: `wdt_counter = ~0` (255), `wdt_expirations = 0`,
`register_pointer = 0`, `config_reg = CONFIG_ENABLE_ALERT |
CONFIG_ENABLE_POWERCYCLE`, and `setup()` clears all output lines. -/
def initState : State :=
  { wdt_counter := 255
    wdt_expirations := 0
    register_pointer := 0
    config_reg := CONFIG_ENABLE_ALERT ||| CONFIG_ENABLE_POWERCYCLE
    alert := false }

/-- I2C slave-mode write handler (`i2c_receive_event`).  The first byte, if
any, is latched into `register_pointer`; an address-only write stops there;
otherwise the first data byte is applied by `switch(register_pointer)` and
every further byte is read and discarded by the `while(Wire.available())`
loop. -/
def i2c_receive_event (s : State) (bytes : List Nat) : State :=
  match bytes with
  | [] => s
  | addr :: rest =>
    let s1 : State := { s with register_pointer := addr % 256 }
    match rest with
    | [] => s1
    | data :: _discarded =>
      if s1.register_pointer = REG_WDT then
        { s1 with wdt_counter := data % 256, alert := false }
      else if s1.register_pointer = REG_CONFIG then
        { s1 with config_reg := data % 256 }
      else
        s1

/-- I2C slave-mode read handler (`i2c_request_event`): responds with one
byte selected by `register_pointer` (`tx = 0` for any other address) and
does not modify the globals. -/
def i2c_request_event (s : State) : State × Nat :=
  let tx : Nat :=
    if s.register_pointer = REG_VERSION then FW_VERSION
    else if s.register_pointer = REG_CONFIG then s.config_reg
    else if s.register_pointer = REG_WDT then s.wdt_counter
    else 0
  (s, tx)

/-- Escalation ladder: the body of `if(--wdt_counter == 0) { ... }` after
`wdt_expirations++`, reading the already-incremented count from the state.
On count 1 it asserts ALERT when enabled; otherwise the RESET branch and
the POWERCYCLE branch each fire a pulse and clear `wdt_expirations` when
their config bit is set. -/
def escalate (s : State) : State × List Event :=
  if s.wdt_expirations = 1 then
    if s.config_reg &&& CONFIG_ENABLE_ALERT ≠ 0 then
      ({ s with alert := true }, [Event.alertAssert])
    else
      (s, [])
  else
    let p1 : State × List Event :=
      if s.config_reg &&& CONFIG_ENABLE_RESET ≠ 0 then
        ({ s with wdt_expirations := 0 }, [Event.resetPulse])
      else
        (s, [])
    let p2 : State × List Event :=
      if p1.1.config_reg &&& CONFIG_ENABLE_POWERCYCLE ≠ 0 then
        ({ p1.1 with wdt_expirations := 0 }, [Event.powercyclePulse])
      else
        (p1.1, [])
    (p2.1, p1.2 ++ p2.2)

/-- Timer tick handler (`timer_handler`): pre-decrement `wdt_counter` with
8-bit wraparound; when the decrement reaches 0, increment
`wdt_expirations` (8-bit) and run the escalation ladder. -/
def timer_handler (s : State) : State × List Event :=
  let c : Nat := (s.wdt_counter + 255) % 256
  if c = 0 then
    escalate { s with wdt_counter := 0
                      wdt_expirations := (s.wdt_expirations + 1) % 256 }
  else
    ({ s with wdt_counter := c }, [])

/-- State part of one tick. -/
def tickS (s : State) : State := (timer_handler s).1

/-- Events emitted by one tick. -/
def tickE (s : State) : List Event := (timer_handler s).2

/-- State after `n` consecutive ticks with no intervening bus traffic. -/
def runS (s : State) (n : Nat) : State := tickS^[n] s

theorem runS_zero (s : State) : runS s 0 = s := rfl

theorem runS_succ (s : State) (n : Nat) : runS s (n + 1) = tickS (runS s n) :=
  Function.iterate_succ_apply' tickS n s

theorem runS_add (s : State) (m n : Nat) : runS s (m + n) = runS (runS s n) m :=
  Function.iterate_add_apply tickS m n s

theorem tick_no_expire (c e p g : Nat) (a : Bool) (h1 : c ≠ 1) (h2 : c ≤ 255) :
    timer_handler ⟨c, e, p, g, a⟩ = (⟨(c + 255) % 256, e, p, g, a⟩, []) := by
  have hc : (c + 255) % 256 ≠ 0 := by omega
  simp [timer_handler, hc]

theorem tick_expire (c e p g : Nat) (a : Bool) (h : c = 1) :
    timer_handler ⟨c, e, p, g, a⟩ = escalate ⟨0, (e + 1) % 256, p, g, a⟩ := by
  subst h
  simp [timer_handler]

theorem escalate_alert (c e p g : Nat) (a : Bool) (h1 : e = 1)
    (h2 : g &&& CONFIG_ENABLE_ALERT ≠ 0) :
    escalate ⟨c, e, p, g, a⟩ = (⟨c, e, p, g, true⟩, [Event.alertAssert]) := by
  subst h1
  simp [escalate, h2]

theorem escalate_noflags (c e p g : Nat) (a : Bool) (h1 : e ≠ 1)
    (h2 : g &&& CONFIG_ENABLE_RESET = 0)
    (h3 : g &&& CONFIG_ENABLE_POWERCYCLE = 0) :
    escalate ⟨c, e, p, g, a⟩ = (⟨c, e, p, g, a⟩, []) := by
  simp [escalate, h1, h2, h3]

theorem escalate_fire_both (c e p g : Nat) (a : Bool) (h1 : e ≠ 1)
    (h2 : g &&& CONFIG_ENABLE_RESET ≠ 0)
    (h3 : g &&& CONFIG_ENABLE_POWERCYCLE ≠ 0) :
    escalate ⟨c, e, p, g, a⟩
      = (⟨c, 0, p, g, a⟩, [Event.resetPulse, Event.powercyclePulse]) := by
  simp [escalate, h1, h2, h3]

theorem escalate_counter (s : State) :
    (escalate s).1.wdt_counter = s.wdt_counter := by
  simp only [escalate]
  split_ifs <;> rfl

theorem escalate_alert_mono (s : State) (h : s.alert = true) :
    (escalate s).1.alert = true := by
  simp only [escalate]
  split_ifs <;> simp_all

theorem escalate_exp_noflags (s : State)
    (h2 : s.config_reg &&& CONFIG_ENABLE_RESET = 0)
    (h3 : s.config_reg &&& CONFIG_ENABLE_POWERCYCLE = 0) :
    (escalate s).1.wdt_expirations = s.wdt_expirations := by
  simp only [escalate]
  split_ifs <;> simp_all

theorem tick_alert_mono (s : State) (h : s.alert = true) :
    (tickS s).alert = true := by
  simp only [tickS, timer_handler]
  split_ifs
  · exact escalate_alert_mono _ h
  · exact h

theorem runS_alert_mono (n : Nat) (s : State) (h : s.alert = true) :
    (runS s n).alert = true := by
  induction n with
  | zero => exact h
  | succ n ih => rw [runS_succ]; exact tick_alert_mono _ ih

theorem run_dec (k : Nat) : ∀ (c e p g : Nat) (a : Bool), k < c → c ≤ 255 →
    runS ⟨c, e, p, g, a⟩ k = ⟨c - k, e, p, g, a⟩ := by
  induction k with
  | zero => intro c e p g a _ _; simp [runS]
  | succ k ih =>
    intro c e p g a h1 h2
    rw [runS_succ, ih c e p g a (by omega) h2]
    have ht := tick_no_expire (c - k) e p g a (by omega) (by omega)
    have hm : (c - k + 255) % 256 = c - (k + 1) := by omega
    rw [tickS, ht, hm]

theorem run_to_one (c e p g : Nat) (a : Bool) (h1 : 1 ≤ c) (h2 : c ≤ 255) :
    runS ⟨c, e, p, g, a⟩ (c - 1) = ⟨1, e, p, g, a⟩ := by
  have h := run_dec (c - 1) c e p g a (by omega) h2
  have h3 : c - (c - 1) = 1 := by omega
  rw [h, h3]

theorem run_wrap (e p g : Nat) (a : Bool) :
    runS ⟨0, e, p, g, a⟩ 255 = ⟨1, e, p, g, a⟩ := by
  have h : (255 : Nat) = 254 + 1 := by norm_num
  rw [h, runS_add]
  have t0 : runS ⟨0, e, p, g, a⟩ 1 = ⟨255, e, p, g, a⟩ := by
    rw [runS_succ, runS_zero, tickS, tick_no_expire 0 e p g a (by omega) (by omega)]
  rw [t0]
  have h2 := run_dec 254 255 e p g a (by omega) (by omega)
  rw [h2]

theorem run_block (e p g : Nat) (a : Bool) (h1 : 1 ≤ e) (h2 : e ≤ 254)
    (hg1 : g &&& CONFIG_ENABLE_RESET = 0)
    (hg2 : g &&& CONFIG_ENABLE_POWERCYCLE = 0) :
    runS ⟨0, e, p, g, a⟩ 256 = ⟨0, e + 1, p, g, a⟩ := by
  have h : (256 : Nat) = 1 + 255 := by norm_num
  rw [h, runS_add, run_wrap, runS_succ, runS_zero, tickS,
      tick_expire 1 e p g a rfl]
  have hm : (e + 1) % 256 = e + 1 := Nat.mod_eq_of_lt (by omega)
  rw [hm, escalate_noflags 0 (e + 1) p g a (by omega) hg1 hg2]

theorem run_blocks (m : Nat) : ∀ (e p g : Nat) (a : Bool), 1 ≤ e → e + m ≤ 255 →
    g &&& CONFIG_ENABLE_RESET = 0 → g &&& CONFIG_ENABLE_POWERCYCLE = 0 →
    runS ⟨0, e, p, g, a⟩ (256 * m) = ⟨0, e + m, p, g, a⟩ := by
  induction m with
  | zero => intro e p g a _ _ _ _; simp [runS]
  | succ m ih =>
    intro e p g a h1 h2 hg1 hg2
    have h : 256 * (m + 1) = 256 * m + 256 := by ring
    have he : e + (m + 1) = (e + 1) + m := by omega
    rw [h, he, runS_add, run_block e p g a h1 (by omega) hg1 hg2,
        ih (e + 1) p g a (by omega) (by omega) hg1 hg2]

/-- C1: evaluation of the refresh write at its failing input.  At a state
with one recorded expiration, writing 200 to the WDT register reloads
`wdt_counter`, latches the register pointer and deasserts ALERT, but
leaves `wdt_expirations` at 1 instead of clearing it to 0 as the claim
(and the host driver's documentation) require. -/
theorem c1_refresh_keeps_expirations :
    i2c_receive_event ⟨55, 1, 0, 6, true⟩ [REG_WDT, 200]
      = ⟨200, 1, REG_WDT, 6, false⟩ ∧
    (i2c_receive_event ⟨55, 1, 0, 6, true⟩ [REG_WDT, 200]).wdt_expirations ≠ 0 := by
  decide

/-- C2 counterexample: a read request with no preceding address phase on a
freshly powered-on device (register pointer still at its default 0, the
VERSION address) responds with the firmware version `0x10`, not 0. -/
theorem c2_read_no_addr_counterexample :
    (i2c_request_event initState).2 = FW_VERSION ∧
    (i2c_request_event initState).2 ≠ 0 := by
  decide

/-- C2 amended: a read request with no preceding address phase never
mutates state, and it responds with the byte selected by the persisted
register pointer — which is 0 only when that pointer holds an undefined
register address (greater than `REG_WDT`); at the power-on default the
pointer selects VERSION and the response is the firmware version. -/
theorem c2_read_no_addr_amended (s : State) :
    (i2c_request_event s).1 = s ∧
    (REG_WDT < s.register_pointer → (i2c_request_event s).2 = 0) := by
  refine ⟨rfl, fun h => ?_⟩
  simp only [REG_WDT] at h
  have h0 : s.register_pointer ≠ REG_VERSION := by simp only [REG_VERSION]; omega
  have h1 : s.register_pointer ≠ REG_CONFIG := by simp only [REG_CONFIG]; omega
  have h2 : s.register_pointer ≠ REG_WDT := by simp only [REG_WDT]; omega
  simp [i2c_request_event, h0, h1, h2]

/-- C2 amended, witness at register pointer 3. -/
theorem c2_read_no_addr_amended_witness :
    (i2c_request_event ⟨10, 0, 3, 6, false⟩).1 = ⟨10, 0, 3, 6, false⟩ ∧
    (i2c_request_event ⟨10, 0, 3, 6, false⟩).2 = 0 :=
  ⟨(c2_read_no_addr_amended ⟨10, 0, 3, 6, false⟩).1,
   (c2_read_no_addr_amended ⟨10, 0, 3, 6, false⟩).2 (by decide)⟩

/-- C7: writing any 8-bit value V to the CONFIG register and then reading
CONFIG returns exactly V. -/
theorem c7_config_roundtrip (s : State) (v : Nat) (hv : v < 256) :
    (i2c_request_event (i2c_receive_event s [REG_CONFIG, v])).2 = v := by
  simp [i2c_receive_event, i2c_request_event, REG_VERSION, REG_CONFIG, REG_WDT,
        Nat.mod_eq_of_lt hv]

/-- C7 witness at V = 7. -/
theorem c7_config_roundtrip_witness :
    (i2c_request_event (i2c_receive_event initState [REG_CONFIG, 7])).2 = 7 :=
  c7_config_roundtrip initState 7 (by decide)

/-- C8: an address-only write updates only the register pointer; and a
write with one or more data bytes applies just the first data byte — any
trailing bytes are consumed and discarded without effect, so the
transaction behaves exactly like the two-byte transaction. -/
theorem c8_write_protocol (s : State) (a : Nat) (ha : a < 256) :
    i2c_receive_event s [a] = { s with register_pointer := a } ∧
    ∀ (d : Nat) (rest : List Nat),
      i2c_receive_event s (a :: d :: rest) = i2c_receive_event s [a, d] := by
  refine ⟨?_, fun d rest => rfl⟩
  simp [i2c_receive_event, Nat.mod_eq_of_lt ha]

/-- C8 witness at address 5 with trailing garbage bytes. -/
theorem c8_write_protocol_witness :
    (i2c_receive_event initState [5] = { initState with register_pointer := 5 }) ∧
    ∀ (d : Nat) (rest : List Nat),
      i2c_receive_event initState (5 :: d :: rest)
        = i2c_receive_event initState [5, d] :=
  c8_write_protocol initState 5 (by decide)

/-- C5: on a tick whose decrement reaches zero (counter = 1) with the new
expiration count at least 2 (previous count between 1 and 254), and with
both the reset and the powercycle config bits set, that single tick fires
both the reset pulse and the powercycle pulse, and the expiration count is
0 afterwards. -/
theorem c5_escalation_fires_both (c e p g : Nat) (a : Bool) (hc : c = 1)
    (he1 : 1 ≤ e) (he2 : e ≤ 254)
    (hr : g &&& CONFIG_ENABLE_RESET ≠ 0)
    (hp : g &&& CONFIG_ENABLE_POWERCYCLE ≠ 0) :
    tickE ⟨c, e, p, g, a⟩ = [Event.resetPulse, Event.powercyclePulse] ∧
    (tickS ⟨c, e, p, g, a⟩).wdt_expirations = 0 := by
  subst hc
  have hm : (e + 1) % 256 = e + 1 := Nat.mod_eq_of_lt (by omega)
  have ht := tick_expire 1 e p g a rfl
  have hesc := escalate_fire_both 0 (e + 1) p g a (by omega) hr hp
  constructor
  · rw [tickE, ht, hm, hesc]
  · rw [tickS, ht, hm, hesc]

/-- C5 witness: counter 1, expiration count 1, config `0b011`. -/
theorem c5_escalation_fires_both_witness :
    tickE ⟨1, 1, 0, 3, false⟩ = [Event.resetPulse, Event.powercyclePulse] ∧
    (tickS ⟨1, 1, 0, 3, false⟩).wdt_expirations = 0 :=
  c5_escalation_fires_both 1 1 0 3 false rfl (by decide) (by decide)
    (by decide) (by decide)

/-- C6: one tick decrements the counter by exactly 1 modulo 256 (0 wraps
to 255); the decrement reaches 0 exactly when the counter was 1, and in
that case — and only that case — the expiration count is incremented
(modulo 256, the 8-bit increment) and the escalation ladder is run on the
new count; otherwise only the counter changes and no output action fires. -/
theorem c6_tick_semantics (c e p g : Nat) (a : Bool) (hc : c ≤ 255) :
    (tickS ⟨c, e, p, g, a⟩).wdt_counter = (c + 255) % 256 ∧
    (c = 0 → (tickS ⟨c, e, p, g, a⟩).wdt_counter = 255) ∧
    ((c + 255) % 256 = 0 ↔ c = 1) ∧
    (c ≠ 1 → timer_handler ⟨c, e, p, g, a⟩ = (⟨(c + 255) % 256, e, p, g, a⟩, [])) ∧
    (c = 1 → timer_handler ⟨c, e, p, g, a⟩ = escalate ⟨0, (e + 1) % 256, p, g, a⟩) := by
  refine ⟨?_, ?_, by omega, fun h => tick_no_expire c e p g a h hc,
    fun h => tick_expire c e p g a h⟩
  · by_cases h : c = 1
    · subst h
      rw [tickS, tick_expire 1 e p g a rfl]
      rw [escalate_counter]
    · rw [tickS, tick_no_expire c e p g a h hc]
  · intro h
    subst h
    rw [tickS, tick_no_expire 0 e p g a (by omega) (by omega)]

/-- C6 witness at counter 1 (expiring) — the hypothesis `c ≤ 255` is
discharged at a concrete input. -/
theorem c6_tick_semantics_witness :
    (tickS ⟨1, 0, 0, 6, false⟩).wdt_counter = (1 + 255) % 256 ∧
    (1 = 0 → (tickS ⟨1, 0, 0, 6, false⟩).wdt_counter = 255) ∧
    ((1 + 255) % 256 = 0 ↔ 1 = 1) ∧
    (1 ≠ 1 → timer_handler ⟨1, 0, 0, 6, false⟩ = (⟨(1 + 255) % 256, 0, 0, 6, false⟩, [])) ∧
    (1 = 1 → timer_handler ⟨1, 0, 0, 6, false⟩ = escalate ⟨0, (0 + 1) % 256, 0, 6, false⟩) :=
  c6_tick_semantics 1 0 0 6 false (by decide)

/-- C3 amended: with the reset and powercycle escalation actions disabled,
each tick leaves the expiration count unchanged unless the decrement
reaches zero, in which case the count is incremented modulo 256 (it is an
8-bit counter, so it wraps 255 → 0 at the 256th consecutive expiration);
consequently the count is non-decreasing across a tick as long as it has
not yet reached 255. -/
theorem c3_expirations_step (c e p g : Nat) (a : Bool)
    (hr : g &&& CONFIG_ENABLE_RESET = 0)
    (hp : g &&& CONFIG_ENABLE_POWERCYCLE = 0) :
    ((tickS ⟨c, e, p, g, a⟩).wdt_expirations
        = if (c + 255) % 256 = 0 then (e + 1) % 256 else e) ∧
    (c ≤ 255 → e < 255 → e ≤ (tickS ⟨c, e, p, g, a⟩).wdt_expirations) := by
  have hstep : (tickS ⟨c, e, p, g, a⟩).wdt_expirations
      = if (c + 255) % 256 = 0 then (e + 1) % 256 else e := by
    by_cases h : (c + 255) % 256 = 0
    · have ht : timer_handler ⟨c, e, p, g, a⟩
          = escalate ⟨0, (e + 1) % 256, p, g, a⟩ := by
        simp [timer_handler, h]
      rw [tickS, ht, if_pos h]
      exact escalate_exp_noflags ⟨0, (e + 1) % 256, p, g, a⟩ hr hp
    · have ht : timer_handler ⟨c, e, p, g, a⟩
          = (⟨(c + 255) % 256, e, p, g, a⟩, []) := by
        simp [timer_handler, h]
      rw [tickS, ht, if_neg h]
  refine ⟨hstep, fun _ he => ?_⟩
  rw [hstep]
  have hm : (e + 1) % 256 = e + 1 := Nat.mod_eq_of_lt (by omega)
  split_ifs <;> omega

/-- C3 amended, witness at counter 1, expiration count 5, config `0b100`. -/
theorem c3_expirations_step_witness :
    ((tickS ⟨1, 5, 0, 4, false⟩).wdt_expirations
        = if (1 + 255) % 256 = 0 then (5 + 1) % 256 else 5) ∧
    (1 ≤ 255 → 5 < 255 → 5 ≤ (tickS ⟨1, 5, 0, 4, false⟩).wdt_expirations) :=
  c3_expirations_step 1 5 0 4 false (by decide) (by decide)

/-- C3 counterexample: monotonicity of the expiration count fails because
it is an 8-bit counter.  From the reachable state obtained by configuring
alert-only (a CONFIG write of 4 on the power-on state) and then never
refreshing, the 256th expiration wraps the count from 255 back to 0: after
65534 ticks the count is 255, after 65535 ticks it is 0. -/
theorem c3_expirations_monotone_counterexample :
    ¬ (∀ (s : State) (n : Nat),
        s.config_reg &&& CONFIG_ENABLE_RESET = 0 →
        s.config_reg &&& CONFIG_ENABLE_POWERCYCLE = 0 →
        (runS s n).wdt_expirations ≤ (runS s (n + 1)).wdt_expirations) := by
  intro h
  have hs : i2c_receive_event initState [REG_CONFIG, CONFIG_ENABLE_ALERT]
      = ⟨255, 0, 1, 4, false⟩ := by decide
  have e1 : runS ⟨255, 0, 1, 4, false⟩ 255 = ⟨0, 1, 1, 4, true⟩ := by
    have h255 : (255 : Nat) = 1 + 254 := by norm_num
    rw [h255, runS_add, run_dec 254 255 0 1 4 false (by omega) (by omega),
        runS_succ, runS_zero, tickS, tick_expire 1 0 1 4 false rfl,
        escalate_alert 0 ((0 + 1) % 256) 1 4 false (by norm_num) (by decide)]
  have e2 : runS ⟨0, 1, 1, 4, true⟩ (256 * 254) = ⟨0, 255, 1, 4, true⟩ := by
    have := run_blocks 254 1 1 4 true (by omega) (by omega) (by decide) (by decide)
    simpa using this
  have e3 : runS ⟨0, 255, 1, 4, true⟩ 255 = ⟨1, 255, 1, 4, true⟩ :=
    run_wrap 255 1 4 true
  have e4 : tickS ⟨1, 255, 1, 4, true⟩ = ⟨0, 0, 1, 4, true⟩ := by
    rw [tickS, tick_expire 1 255 1 4 true rfl,
        escalate_noflags 0 ((255 + 1) % 256) 1 4 true (by norm_num) (by decide)
          (by decide)]
  have big1 : runS ⟨255, 0, 1, 4, false⟩ 65534 = ⟨1, 255, 1, 4, true⟩ := by
    have hs1 : (65534 : Nat) = 65279 + 255 := by norm_num
    have hs2 : (65279 : Nat) = 255 + 256 * 254 := by norm_num
    rw [hs1, runS_add, e1, hs2, runS_add, e2, e3]
  have big2 : runS ⟨255, 0, 1, 4, false⟩ (65534 + 1) = ⟨0, 0, 1, 4, true⟩ := by
    rw [runS_succ, big1, e4]
  have hmono := h (i2c_receive_event initState [REG_CONFIG, CONFIG_ENABLE_ALERT])
    65534 (by decide) (by decide)
  rw [hs, big1, big2] at hmono
  exact absurd hmono (by decide)

/-- C4: starting from an armed state (counter c with 1 ≤ c ≤ 255, no
recorded expirations, ALERT deasserted) with the alert config bit set, and
ticking with no refresh write: the ALERT line is low for the first c − 1
ticks and high from tick c onward — a single low-to-high transition at the
first decrement-to-zero, latched across all further ticks (only a refresh
write ever deasserts it).  Moreover the expiring tick emits exactly one
`alertAssert` action. -/
theorem c4_alert_latched (c p g n : Nat) (h1 : 1 ≤ c) (h2 : c ≤ 255)
    (hg : g &&& CONFIG_ENABLE_ALERT ≠ 0) :
    (runS ⟨c, 0, p, g, false⟩ n).alert = decide (c ≤ n) ∧
    tickE (runS ⟨c, 0, p, g, false⟩ (c - 1)) = [Event.alertAssert] := by
  obtain ⟨m, rfl⟩ : ∃ m, c = m + 1 := ⟨c - 1, by omega⟩
  have hto1 : runS ⟨m + 1, 0, p, g, false⟩ m = ⟨1, 0, p, g, false⟩ := by
    have h := run_to_one (m + 1) 0 p g false (by omega) h2
    simpa using h
  have hatc : runS ⟨m + 1, 0, p, g, false⟩ (m + 1) = ⟨0, 1, p, g, true⟩ := by
    rw [runS_succ, hto1, tickS, tick_expire 1 0 p g false rfl,
        escalate_alert 0 ((0 + 1) % 256) p g false (by norm_num) hg]
  constructor
  · by_cases hn : n < m + 1
    · have hd : decide (m + 1 ≤ n) = false := by simp; omega
      rw [hd, run_dec n (m + 1) 0 p g false hn h2]
    · have hd : decide (m + 1 ≤ n) = true := by simp; omega
      have hsplit : n = (n - (m + 1)) + (m + 1) := by omega
      rw [hd, hsplit, runS_add, hatc]
      exact runS_alert_mono (n - (m + 1)) ⟨0, 1, p, g, true⟩ rfl
  · have hm : m + 1 - 1 = m := by omega
    rw [hm, hto1, tickE, tick_expire 1 0 p g false rfl,
        escalate_alert 0 ((0 + 1) % 256) p g false (by norm_num) hg]

/-- C4 witness: counter 2, alert-only config, observed at tick 3. -/
theorem c4_alert_latched_witness :
    (runS ⟨2, 0, 0, 4, false⟩ 3).alert = decide (2 ≤ 3) ∧
    tickE (runS ⟨2, 0, 0, 4, false⟩ (2 - 1)) = [Event.alertAssert] :=
  c4_alert_latched 2 0 4 3 (by decide) (by decide) (by decide)

/-- C10: writing 0 to the WDT register yields the maximum timeout rather
than an immediate expiration: the refresh leaves the counter at 0, tick
n + 1 (for n < 255) leaves it at 255 − n with the expiration count
untouched (so the first tick wraps 0 → 255 with no expiration event and no
expiration occurs during ticks 1..255), after 255 ticks the counter is 1,
and the 256th tick is the first decrement-to-zero. -/
theorem c10_refresh_zero_max_timeout (s : State) (n : Nat) (hn : n < 255) :
    (i2c_receive_event s [REG_WDT, 0]).wdt_counter = 0 ∧
    (runS (i2c_receive_event s [REG_WDT, 0]) (n + 1)).wdt_counter = 255 - n ∧
    (runS (i2c_receive_event s [REG_WDT, 0]) (n + 1)).wdt_expirations
      = s.wdt_expirations ∧
    (runS (i2c_receive_event s [REG_WDT, 0]) 255).wdt_counter = 1 ∧
    (runS (i2c_receive_event s [REG_WDT, 0]) 256).wdt_counter = 0 := by
  obtain ⟨c, e, p, g, a⟩ := s
  have hs0 : i2c_receive_event ⟨c, e, p, g, a⟩ [REG_WDT, 0] = ⟨0, e, 2, g, false⟩ := by
    simp [i2c_receive_event, REG_WDT, REG_CONFIG]
  have t0 : runS ⟨0, e, 2, g, false⟩ 1 = ⟨255, e, 2, g, false⟩ := by
    rw [runS_succ, runS_zero, tickS, tick_no_expire 0 e 2 g false (by omega) (by omega)]
  have hdec : runS ⟨0, e, 2, g, false⟩ (n + 1) = ⟨255 - n, e, 2, g, false⟩ := by
    rw [runS_add, t0, run_dec n 255 e 2 g false (by omega) (by omega)]
  have h255 : runS ⟨0, e, 2, g, false⟩ 255 = ⟨1, e, 2, g, false⟩ := run_wrap e 2 g false
  have h256 : (runS ⟨0, e, 2, g, false⟩ 256).wdt_counter = 0 := by
    have hsplit : (256 : Nat) = 1 + 255 := by norm_num
    rw [hsplit, runS_add, h255, runS_succ, runS_zero, tickS,
        tick_expire 1 e 2 g false rfl, escalate_counter]
  rw [hs0, hdec, h255, h256]
  exact ⟨rfl, rfl, rfl, rfl, rfl⟩

/-- C10 witness at the power-on state, first tick. -/
theorem c10_refresh_zero_max_timeout_witness :
    (i2c_receive_event initState [REG_WDT, 0]).wdt_counter = 0 ∧
    (runS (i2c_receive_event initState [REG_WDT, 0]) (0 + 1)).wdt_counter = 255 - 0 ∧
    (runS (i2c_receive_event initState [REG_WDT, 0]) (0 + 1)).wdt_expirations
      = initState.wdt_expirations ∧
    (runS (i2c_receive_event initState [REG_WDT, 0]) 255).wdt_counter = 1 ∧
    (runS (i2c_receive_event initState [REG_WDT, 0]) 256).wdt_counter = 0 :=
  c10_refresh_zero_max_timeout initState 0 (by decide)

end AttinyWdt
